import Mathlib

/-!
Shallow embedding of the free-text filter-extraction / query / chat pipeline of
the Dante Propiedades backend:

* `src/logic/filter_data.py` — the fixed vocabularies (gazetteer, types, operations);
* `src/logic/filters.py` — `detect_filters`, the rule-based filter extractor;
* `src/backend/logic/database.py` — `query_properties`, the catalog query;
* `src/logic/gemini_client.py` — `call_gemini_with_rotation`, the LLM gateway
  with credential rotation and static fallback;
* `src/backend/main-ai.py` — the `/chat` orchestrator (merge, search, greeting
  short-circuit, response shaping, conversation logging).

Python strings are modelled as `String` / `List Char` (Python `len` and Lean
`String.length` both count Unicode code points); Python dicts of filters as
ordered association lists with Python's insert-or-overwrite assignment; the
regular expressions of `filters.py` as hand-compiled matchers, each documented
with the pattern it implements.
-/

namespace Dante

/-! ### Character and string primitives (Python semantics) -/

/-- Whitespace as stripped by Python's `str.strip()` and matched by `\s`
(the ASCII repertoire; no other Unicode whitespace occurs in the modelled
vocabularies or patterns). -/
def pyIsSpace (c : Char) : Bool :=
  c = ' ' || c = '\t' || c = '\n' || c = '\r' || c = '\x0b' || c = '\x0c'

/-- Python `str.lower`, restricted to the character repertoire the program
uses: ASCII letters plus the accented Spanish capitals. -/
def py_lower (c : Char) : Char :=
  if 'A' ≤ c && c ≤ 'Z' then Char.ofNat (c.toNat + 32)
  else if c = 'Á' then 'á'
  else if c = 'É' then 'é'
  else if c = 'Í' then 'í'
  else if c = 'Ó' then 'ó'
  else if c = 'Ú' then 'ú'
  else if c = 'Ñ' then 'ñ'
  else c

/-- Python `text.lower()` on a whole string. -/
def pyLowerStr (s : String) : String := ⟨s.data.map py_lower⟩

/-- Python `str.strip()`: drop whitespace from both ends. -/
def pyStripChars (l : List Char) : List Char :=
  ((l.dropWhile pyIsSpace).reverse.dropWhile pyIsSpace).reverse

/-- Python `s.strip()` on a `String`. -/
def pyStripStr (s : String) : String := ⟨pyStripChars s.data⟩

/-- Match the literal `lit` at the head of `t`; on success return the rest of
`t`. Building block for the substring test and the hand-compiled regexes. -/
def dropLit : List Char → List Char → Option (List Char)
  | [], t => some t
  | _ :: _, [] => none
  | c :: cs, d :: ds => if c = d then dropLit cs ds else none

/-- Python's `needle in haystack` on strings: contiguous-substring occurrence
(scan every start position, try a literal match there). -/
def listContains (needle : List Char) : List Char → Bool
  | [] => needle.isEmpty
  | t@(_ :: rest) => (dropLit needle t).isSome || listContains needle rest

/-- Python `sub in s` for `String`s. -/
def strContains (s sub : String) : Bool := listContains sub.data s.data

/-- Python `s.startswith(p)`, used only to state properties of shaped text. -/
def strStartsWith (s p : String) : Bool := (dropLit p.data s.data).isSome

/-! ### Filter dictionaries

A Python `Dict[str, Any]` holding filter values. Values the program actually
stores are strings (neighborhood/type/operation) and ints (prices, rooms,
square meters); `vbool`/`vnone` cover the remaining JSON values a caller could
put in the explicit `filters` object, with Python truthiness modelled by
`pyTruthy`. -/

inductive FilterValue where
  | vstr (s : String)
  | vint (n : Int)
  | vbool (b : Bool)
  | vnone
  deriving DecidableEq, Repr

/-- Python truthiness of a filter value (`if filters[k]:`). -/
def pyTruthy : FilterValue → Bool
  | .vstr s => s ≠ ""
  | .vint n => n ≠ 0
  | .vbool b => b
  | .vnone => false

/-- Python `f"{v}"` string formatting of a filter value. -/
def pyToStr : FilterValue → String
  | .vstr s => s
  | .vint n => toString n
  | .vbool b => if b then "True" else "False"
  | .vnone => "None"

/-- An insertion-ordered dictionary, as Python dicts are. -/
abbrev FilterMap := List (String × FilterValue)

/-- Python `m[k]` / `m.get(k)`: the value stored at `k`, if any. -/
def dget : FilterMap → String → Option FilterValue
  | [], _ => none
  | (k', v) :: rest, k => if k' = k then some v else dget rest k

/-- Python `m[k] = v`: overwrite in place if the key exists, else append. -/
def dinsert : FilterMap → String → FilterValue → FilterMap
  | [], k, v => [(k, v)]
  | (k', v') :: rest, k, v =>
    if k' = k then (k', v) :: rest else (k', v') :: dinsert rest k v

/-- Conditional assignment `if detected: m[k] = v` used by the extractor. -/
def dinsOpt (m : FilterMap) (k : String) : Option FilterValue → FilterMap
  | some v => dinsert m k v
  | none => m

/-- Python `m.update(d)`: assign every pair of `d` into `m`, in `d`'s order,
overwriting existing keys. -/
def dictUpdate : FilterMap → FilterMap → FilterMap
  | m, [] => m
  | m, (k, v) :: rest => dictUpdate (dinsert m k v) rest

/-- Remove every binding of key `k` (used to state "as if the key were absent"). -/
def eraseKey (m : FilterMap) (k : String) : FilterMap :=
  m.filter (fun kv => kv.1 ≠ k)

/-! ### Static vocabularies — src/logic/filter_data.py -/

/-- Neighborhood gazetteer, `filter_data.py` lines 9-22, in declaration order. -/
def BARRIOS : List String :=
  ["Parque Avellaneda", "Boedo", "Microcentro", "Pilar", "Colegiales",
   "Palermo", "Belgrano", "Recoleta", "Almagro", "Villa Crespo",
   "San Isidro", "Vicente Lopez"]

/-- Operations vocabulary, `filter_data.py` lines 25-28. -/
def OPERACIONES : List String := ["venta", "alquiler"]

/-- Property-type vocabulary, `filter_data.py` lines 31-38. -/
def TIPOS : List String := ["casa", "terreno", "departamento", "oficina", "ph", "casaquinta"]

/-- `[b.lower() for b in BARRIOS]`, filters.py line 10. -/
def barrios_disponibles : List String := BARRIOS.map pyLowerStr

/-- `[t.lower() for t in TIPOS]`, filters.py line 11. -/
def tipos_disponibles : List String := TIPOS.map pyLowerStr

/-- `[o.lower() for o in OPERACIONES]`, filters.py line 12. -/
def operaciones_disponibles : List String := OPERACIONES.map pyLowerStr

/-! ### Hand-compiled regex matchers — src/logic/filters.py -/

/-- Character class `[a-zA-Záéíóúñ\s]` of the neighborhood fallback patterns. -/
def isBarrioPatChar (c : Char) : Bool :=
  ('a' ≤ c && c ≤ 'z') || ('A' ≤ c && c ≤ 'Z') ||
  c = 'á' || c = 'é' || c = 'í' || c = 'ó' || c = 'ú' || c = 'ñ' || pyIsSpace c

/-- Model of `re.search(lit + r"([a-zA-Záéíóúñ\s]+)", t)` returning `group(1)`:
the leftmost occurrence of the literal followed by at least one class
character; the greedy capture is the maximal class run after the literal.
Implements the "en ", "barrio ", "zona " patterns of filters.py lines 22-25. -/
def searchLitClass (lit : List Char) : List Char → Option (List Char)
  | [] => none
  | t@(_ :: rest) =>
    match dropLit lit t with
    | some after =>
      if (after.takeWhile isBarrioPatChar).isEmpty then searchLitClass lit rest
      else some (after.takeWhile isBarrioPatChar)
    | none => searchLitClass lit rest

/-- Model of `re.search(r"de ([a-zA-Záéíóúñ\s]+)$", t)` returning `group(1)`:
the leftmost "de " whose whole remaining suffix is a nonempty class run. The
greedy capture runs to the end of the string where `$` matches; Python's
before-a-final-newline reading of `$` coincides because a newline is itself a
class character. filters.py line 26. -/
def searchDeEnd : List Char → Option (List Char)
  | [] => none
  | t@(_ :: rest) =>
    match dropLit ['d', 'e', ' '] t with
    | some after =>
      if !after.isEmpty && after.all isBarrioPatChar then some after
      else searchDeEnd rest
    | none => searchDeEnd rest

/-- Character class `[0-9\.]` of the price patterns. -/
def isDigitDot (c : Char) : Bool := c.isDigit || c = '.'

/-- Model of matching `\$?\s*([0-9\.]+)` at a fixed position: optional dollar
sign, greedy whitespace, then a nonempty digits-or-dots capture. The three
character classes are pairwise disjoint, so greedy matching is deterministic
(no backtracking can produce a different outcome). Returns the capture and
the remainder after it. -/
def dollarWsDigits (a : List Char) : Option (List Char × List Char) :=
  let a1 := match a with
    | '$' :: r => r
    | _ => a
  let a2 := a1.dropWhile pyIsSpace
  let cap := a2.takeWhile isDigitDot
  if cap.isEmpty then none else some (cap, a2.dropWhile isDigitDot)

/-- Model of `re.search(lit + r"\$?\s*([0-9\.]+)...", t)` returning `group(1)`
(the trailing optional currency group of the source patterns cannot fail and
does not affect the capture). Implements the "hasta ", "máximo ", "menos de "
max-price patterns (filters.py lines 54-57) and the "desde " min-price
pattern (line 72). -/
def searchPriceLit (lit : List Char) : List Char → Option (List Char)
  | [] => none
  | t@(_ :: rest) =>
    match dropLit lit t with
    | some after =>
      match dollarWsDigits after with
      | some (cap, _) => some cap
      | none => searchPriceLit lit rest
    | none => searchPriceLit lit rest

/-- The lazy gap `.*?\$?\s*([0-9\.]+)` after "precio": advance one non-newline
character at a time, at each point trying the dollar/whitespace/digits tail
(`\s*` may cross a newline, the lazy dot may not). -/
def lazyDigits : List Char → Option (List Char)
  | [] => none
  | t@(c :: rest) =>
    match dollarWsDigits t with
    | some (cap, _) => some cap
    | none => if c = '\n' then none else lazyDigits rest

/-- Model of `re.search(r"precio.*?\$?\s*([0-9\.]+)...", t)` returning
`group(1)`, filters.py line 56. -/
def searchPrecio : List Char → Option (List Char)
  | [] => none
  | t@(_ :: rest) =>
    match dropLit ['p', 'r', 'e', 'c', 'i', 'o'] t with
    | some after =>
      match lazyDigits after with
      | some cap => some cap
      | none => searchPrecio rest
    | none => searchPrecio rest

/-- The mandatory currency alternation `(usd|dólares|dolares|pesos)` of the
bare-number price pattern, filters.py line 58. -/
def currencyWords : List (List Char) :=
  ["usd".data, "dólares".data, "dolares".data, "pesos".data]

/-- Model of `re.search(r"\$?\s*([0-9\.]+)\s*(usd|dólares|dolares|pesos)", t)`
returning `group(1)`: a number followed (after optional whitespace) by a
currency word. A currency word cannot start with a digit, a dot or
whitespace, so the greedy runs are again deterministic. -/
def searchBareCurrency : List Char → Option (List Char)
  | [] => none
  | t@(_ :: rest) =>
    match dollarWsDigits t with
    | some (cap, after) =>
      let a2 := after.dropWhile pyIsSpace
      if currencyWords.any (fun w => (dropLit w a2).isSome) then some cap
      else searchBareCurrency rest
    | none => searchBareCurrency rest

/-- Model of `re.search(r"(\d+)\s*" + lit, t)` returning `group(1)`: leftmost
maximal digit run followed, after optional whitespace, by the literal.
Implements the rooms patterns (filters.py line 81) and the square-meter
patterns (line 86). -/
def searchDigitsLit (lit : List Char) : List Char → Option (List Char)
  | [] => none
  | t@(c :: rest) =>
    if c.isDigit then
      let cap := t.takeWhile Char.isDigit
      let after := (t.dropWhile Char.isDigit).dropWhile pyIsSpace
      if (dropLit lit after).isSome then some cap else searchDigitsLit lit rest
    else searchDigitsLit lit rest

/-- Decimal value of a digit run (`int` on a digits-only string). -/
def digitsToNat (l : List Char) : Nat :=
  l.foldl (fun n c => n * 10 + (c.toNat - 48)) 0

/-- `int(match.group(1).replace('.', ''))`, filters.py lines 65 and 75: strip
the thousands-separator dots; an all-dots capture raises `ValueError`,
modelled as `none` (the extractor then falls through to the next pattern). -/
def parsePrice (cap : List Char) : Option Nat :=
  let ds := cap.filter (fun c => c ≠ '.')
  if ds.isEmpty then none else some (digitsToNat ds)

/-! ### The filter extractor — src/logic/filters.py `detect_filters` -/

/-- Direct gazetteer scan, filters.py lines 15-19: the first lowered barrio
(in gazetteer order) occurring as a substring. -/
def detect_barrio_directo (t : List Char) : Option String :=
  barrios_disponibles.find? (fun b => listContains b.data t)

/-- Validation of a fallback capture, filters.py lines 32-35:
`match.group(1).strip().lower()` accepted only if it is a gazetteer entry. -/
def validate_barrio (cap : List Char) : Option String :=
  if barrios_disponibles.contains ⟨(pyStripChars cap).map py_lower⟩ then
    some ⟨(pyStripChars cap).map py_lower⟩
  else none

/-- The prepositional fallback patterns, filters.py lines 21-35, tried in
order; a pattern whose capture fails validation falls through to the next. -/
def fallback_barrio (t : List Char) : Option String :=
  ((searchLitClass "en ".data t).bind validate_barrio).orElse fun _ =>
  ((searchLitClass "barrio ".data t).bind validate_barrio).orElse fun _ =>
  ((searchLitClass "zona ".data t).bind validate_barrio).orElse fun _ =>
  (searchDeEnd t).bind validate_barrio

/-- Neighborhood detection, filters.py lines 14-35: direct gazetteer hit
first, prepositional fallback otherwise. -/
def detect_barrio (t : List Char) : Option String :=
  (detect_barrio_directo t).orElse (fun _ => fallback_barrio t)

/-- The ordered max-price patterns, filters.py lines 53-59. -/
def precio_pattern_list : List (List Char → Option (List Char)) :=
  [searchPriceLit "hasta ".data, searchPriceLit "máximo ".data, searchPrecio,
   searchPriceLit "menos de ".data, searchBareCurrency]

/-- Max-price detection, filters.py lines 61-69: first pattern that matches
and whose capture parses wins; a parse failure continues with the next
pattern. -/
def detect_max_price (t : List Char) : Option Nat :=
  precio_pattern_list.findSome? (fun pat => (pat t).bind parsePrice)

/-- Min-price detection, filters.py lines 72-78. -/
def detect_min_price (t : List Char) : Option Nat :=
  (searchPriceLit "desde ".data t).bind parsePrice

/-- Rooms detection, filters.py lines 81-83: `(\d+)\s*amb`, else
`(\d+)\s*ambiente`; `int(group(1))` always parses. -/
def detect_min_rooms (t : List Char) : Option Nat :=
  ((searchDigitsLit "amb".data t).orElse
    (fun _ => searchDigitsLit "ambiente".data t)).map digitsToNat

/-- Square-meter detection, filters.py lines 86-88: `(\d+)\s*m2`, else
`(\d+)\s*metros`. -/
def detect_min_sqm (t : List Char) : Option Nat :=
  ((searchDigitsLit "m2".data t).orElse
    (fun _ => searchDigitsLit "metros".data t)).map digitsToNat

/-- `detect_filters(text_lower)`, filters.py lines 6-90: build the filter dict
by the source's successive conditional assignments, in source order
(neighborhood, tipo, operacion, max_price, min_price, min_rooms, min_sqm).
A category that does not match contributes nothing. -/
def detect_filters (text_lower : String) : FilterMap :=
  let t := text_lower.data
  dinsOpt (dinsOpt (dinsOpt (dinsOpt (dinsOpt (dinsOpt (dinsOpt []
    "neighborhood" ((detect_barrio t).map .vstr))
    "tipo" ((tipos_disponibles.find? (fun x => listContains x.data t)).map .vstr))
    "operacion" ((operaciones_disponibles.find? (fun x => listContains x.data t)).map .vstr))
    "max_price" ((detect_max_price t).map (fun n => .vint (Int.ofNat n))))
    "min_price" ((detect_min_price t).map (fun n => .vint (Int.ofNat n))))
    "min_rooms" ((detect_min_rooms t).map (fun n => .vint (Int.ofNat n))))
    "min_sqm" ((detect_min_sqm t).map (fun n => .vint (Int.ofNat n)))

/-! ### The catalog store — src/backend/logic/database.py `query_properties`

A property row, restricted to the NOT NULL columns of the `properties`
schema (database.py lines 57-87); the nullable descriptive and media columns
take no part in filtering or ordering and are omitted. `precio` and
`metros_cuadrados` are REAL columns in the schema; the claims under
verification only compare and order them, so they are modelled as integers. -/

structure Property where
  id_temporal : String
  titulo : String
  barrio : String
  precio : Int
  ambientes : Int
  metros_cuadrados : Int
  operacion : String
  tipo : String
  deriving DecidableEq, Repr

/-- SQLite's ASCII-only case folding used by `LIKE`. -/
def sqliteLower (c : Char) : Char :=
  if 'A' ≤ c && c ≤ 'Z' then Char.ofNat (c.toNat + 32) else c

/-- `column LIKE '%v%'` with the value interpolated by `f"%{v}%"`
(database.py lines 262-266): case-insensitive (ASCII) substring match.
`%`/`_` wildcards inside the value itself are not modelled; no gazetteer or
frontend value contains them. -/
def sqlLike (column : String) (v : FilterValue) : Bool :=
  listContains ((pyToStr v).data.map sqliteLower) (column.data.map sqliteLower)

/-- `column >= ?` on a numeric column. A bound bool is stored as 0/1; SQLite
orders every numeric value before every TEXT value, and a comparison with
NULL is not true (both cases are unreachable through the truthiness gate). -/
def sqlGe (column : Int) : FilterValue → Bool
  | .vint n => column ≥ n
  | .vbool b => column ≥ (if b then 1 else 0)
  | .vstr _ => false
  | .vnone => false

/-- `column <= ?` on a numeric column (see `sqlGe` for the non-numeric cases). -/
def sqlLe (column : Int) : FilterValue → Bool
  | .vint n => column ≤ n
  | .vbool b => column ≤ (if b then 1 else 0)
  | .vstr _ => true
  | .vnone => false

/-- `column = ?` on a TEXT column: equal only to a TEXT value of the same
content (distinct storage classes never compare equal). -/
def sqlEqText (column : String) : FilterValue → Bool
  | .vstr s => column = s
  | _ => false

/-- One conditional WHERE clause, database.py lines 261-287: the predicate is
added only when the key is present AND its value is truthy
(`if 'k' in filters and filters['k']:`); otherwise the clause is absent,
i.e. trivially true. -/
def clauseOf (filters : FilterMap) (key : String) (test : FilterValue → Bool) : Bool :=
  match dget filters key with
  | some v => if pyTruthy v then test v else true
  | none => true

/-- The conjunction of the nine conditional clauses of `query_properties`,
database.py lines 257-287, in source order. -/
def property_matches (filters : FilterMap) (p : Property) : Bool :=
  clauseOf filters "neighborhood" (fun v => sqlLike p.barrio v) &&
  clauseOf filters "barrio" (fun v => sqlLike p.barrio v) &&
  clauseOf filters "min_price" (fun v => sqlGe p.precio v) &&
  clauseOf filters "max_price" (fun v => sqlLe p.precio v) &&
  clauseOf filters "min_rooms" (fun v => sqlGe p.ambientes v) &&
  clauseOf filters "operacion" (fun v => sqlEqText p.operacion v) &&
  clauseOf filters "tipo" (fun v => sqlEqText p.tipo v) &&
  clauseOf filters "min_sqm" (fun v => sqlGe p.metros_cuadrados v) &&
  clauseOf filters "max_sqm" (fun v => sqlLe p.metros_cuadrados v)

/-- Ascending price order, `ORDER BY precio ASC` (database.py line 289). -/
def precioLe (a b : Property) : Prop := a.precio ≤ b.precio

instance : DecidableRel precioLe := fun a b => Int.decLe a.precio b.precio

instance : IsTotal Property precioLe := ⟨fun a b => Int.le_total a.precio b.precio⟩

instance : IsTrans Property precioLe := ⟨fun _ _ _ => Int.le_trans⟩

/-- `query_properties(filters)`, database.py lines 247-307: select the rows
satisfying every active clause, ordered by ascending price. The SQLite table
is modelled as the list `db` of its rows. -/
def query_properties (filters : FilterMap) (db : List Property) : List Property :=
  List.insertionSort precioLe (db.filter (property_matches filters))

/-! ### The LLM gateway — src/logic/gemini_client.py -/

/-- `get_fallback_response()`, gemini_client.py lines 91-93: the fixed static
fallback text, verbatim. -/
def get_fallback_response : String :=
  "🤖 **Dante Propiedades**\n\n¡Hola! La aplicación está funcionando pero hay un problema temporal con el servicio de IA.\n\n**Sistema disponible:**\n✅ Búsqueda de propiedades\n✅ Filtros por barrio, precio, tipo\n✅ Base de datos cargada\n\n⚠️ **El modo conversacional IA está temporalmente desactivado.**\n\n**Cómo usar:**\n1. Escribí tu búsqueda (ej: \"departamento en palermo\")\n2. La app encontrará propiedades relevantes\n3. Usá los filtros para refinar resultados\n\n🏠 **¡La búsqueda de propiedades funciona perfectamente!**"

/-- `call_gemini_with_rotation(prompt)`, gemini_client.py lines 24-89.

The provider is abstracted as `attempt`: for a given credential either a
response text (a response with content parts; the code then returns
`response.text.strip()`) or `none` (any raised error, or a response with zero
parts — the code raises and the blanket `except` advances to the next
credential; the error classification of lines 74-84 is logging only and does
not affect control flow). The function never raises: every path returns a
string. The second component counts the completion attempts (one
`generate_content` call per credential tried, in declaration order, no
retries); it instruments the loop and is not part of the Python return
value. An empty credential list returns the fallback after zero attempts
(lines 30-32). -/
def call_gemini_with_rotation (attempt : String → Option String) :
    List String → String × Nat
  | [] => (get_fallback_response, 0)
  | key :: rest =>
    match attempt key with
    | some text => (pyStripStr text, 1)
    | none =>
      let r := call_gemini_with_rotation attempt rest
      (r.1, r.2 + 1)

/-! ### The response shaper — src/backend/main-ai.py lines 227-266 -/

/-- The numbered-listing test of main-ai.py lines 239-241: a stripped line
that is nonempty, starts with a digit, and contains a dot, a closing
parenthesis or a listing emoji. -/
def is_listing_line (line : List Char) : Bool :=
  let ls := pyStripChars line
  !ls.isEmpty &&
    (match ls with
     | c :: _ => c.isDigit
     | [] => false) &&
    (listContains ".".data ls || listContains ")".data ls ||
     listContains "🏠".data ls || listContains "📍".data ls)

/-- The property-emoji test of main-ai.py line 246 (applied to the raw line). -/
def has_property_emoji (line : List Char) : Bool :=
  listContains "🏠".data line || listContains "📍".data line ||
  listContains "💰".data line || listContains "📋".data line ||
  listContains "💬".data line

/-- Python `answer.split('\n')`. -/
def splitLines (l : List Char) : List (List Char) :=
  l.foldr
    (fun c acc =>
      match acc with
      | cur :: done => if c = '\n' then [] :: cur :: done else (c :: cur) :: done
      | [] => [[c]])
    [[]]

/-- Python `'\n'.join(lines)`. -/
def joinLines : List (List Char) → List Char
  | [] => []
  | [l] => l
  | l :: rest => l ++ '\n' :: joinLines rest

/-- The line-dropping loop of main-ai.py lines 231-255. A numbered listing
line starts skip mode and is dropped; a line containing a property emoji is
always dropped; in skip mode every line is dropped, and skip mode ends on a
blank line or on the last line of the text (which is itself still dropped). -/
def clean_lines (skip : Bool) : List (List Char) → List (List Char)
  | [] => []
  | line :: rest =>
    if is_listing_line line then clean_lines true rest
    else if has_property_emoji line then clean_lines skip rest
    else if skip then
      clean_lines (if (pyStripChars line).isEmpty || rest.isEmpty then false else true) rest
    else line :: clean_lines skip rest

/-- The response shaping applied when the search returned a non-empty result
list, main-ai.py lines 227-266: strip LLM-emitted listing blocks; if the
survivor is empty or shorter than 20 characters, replace it with a
synthesized confirmation; otherwise, if it mentions neither "propiedad" nor
"encontré", append a suffix pointing at the result cards. -/
def clean_answer (answer : String) (results_len : Nat) : String :=
  let cleaned := pyStripChars (joinLines (clean_lines false (splitLines answer.data)))
  if cleaned.isEmpty || cleaned.length < 20 then
    "✅ Encontré " ++ toString results_len ++
      " propiedades que coinciden con tu búsqueda. Te las muestro abajo:"
  else
    let low : List Char := cleaned.map py_lower
    if !listContains "propiedad".data low && !listContains "encontré".data low then
      ⟨cleaned⟩ ++ "\n\n📊 **Encontré " ++ toString results_len ++
        " propiedades** - Te las muestro en detalle abajo 👇"
    else ⟨cleaned⟩

/-! ### The chat orchestrator — src/backend/main-ai.py `/chat` -/

/-- The greeting vocabulary, main-ai.py line 207. -/
def palabras_bienvenida : List String :=
  ["hola", "hi", "hello", "buenas", "empezar", "inicio", "ayuda"]

/-- The fixed templated welcome message, main-ai.py lines 212-219, verbatim
(including the source's literal indentation and trailing space). -/
def welcome_message : String :=
  "¡Hola! 👋 Soy tu asistente de Dante Propiedades. \n\n        Te ayudo a encontrar la propiedad ideal. Podés:\n        • Usar los filtros a la izquierda para búsquedas específicas\n        • Contarme directamente qué estás buscando\n        • Preguntarme sobre propiedades que veas\n\n        ¿En qué tipo de propiedad estás interesado hoy?"

/-- A `ChatRequest` (main-ai.py lines 142-147). `es_seguimiento` is accepted
and never read by the handler. -/
structure ChatRequest where
  message : String
  channel : String := "web"
  filters : Option FilterMap := none
  contexto_anterior : Option FilterMap := none
  es_seguimiento : Bool := false

/-- One row of the `logs` table as written by `log_conversation`
(database.py lines 380-412). The wall-clock `response_time` column is not
representable in a pure embedding and is omitted. -/
structure LogRecord where
  channel : String
  user_message : String
  bot_response : String
  search_performed : Bool
  results_count : Nat
  deriving DecidableEq, Repr

/-- The environment of one `/chat` request: the property table, the stored
history for the channel (`get_historial_canal`), and the two text-producing
collaborators. `build_prompt` (gemini_client.py lines 96-173) is pure string
formatting whose output no verified claim constrains (its result-listing
branch even depends on Python `set` iteration order), so it is kept
abstract; `llm` abstracts `call_gemini_with_rotation`, whose rotation logic
is embedded separately above. -/
structure ChatEnv where
  db : List Property
  historial : List String
  build_prompt : String → Option (List Property) → FilterMap → String → String → String
  llm : String → String

/-- The outcome of one `/chat` request: the HTTP status, the `ChatResponse`
fields (main-ai.py lines 149-153 and 273-278), the number of gateway calls
performed (`metrics.increment_gemini_calls`, line 223), and the conversation
rows appended (`log_conversation`, line 269). -/
structure ChatResult where
  status : Nat
  response : String
  results_count : Option Nat
  search_performed : Bool
  propiedades : Option (List Property)
  gemini_calls : Nat
  log_appended : List LogRecord

/-- The merged filter set of main-ai.py lines 175-178:
`filters = filters_from_frontend.copy(); filters.update(detected_filters)`. -/
def merged_filters (req : ChatRequest) : FilterMap :=
  dictUpdate (req.filters.getD []) (detect_filters (pyLowerStr (pyStripStr req.message)))

/-- The `/chat` handler, main-ai.py lines 160-293.

An out-of-bounds `message` (Pydantic `min_length=1, max_length=1000`, line
143) is rejected by FastAPI with a 422 validation error before the handler
runs. A message that strips to empty raises `HTTPException(400)` inside the
`try` block (line 168); the blanket `except Exception` of line 290 catches
it and re-raises a 500, so the caller observes a 500 on that path. On the
main path: merge frontend and detected filters (detected values overwrite on
key collision), search when the merged dict is non-empty, short-circuit to
the fixed welcome on a first-turn greeting, otherwise call the gateway and
shape the answer when the search returned results, then append one
conversation-log row and answer 200. -/
def chat (env : ChatEnv) (req : ChatRequest) : ChatResult :=
  if req.message.length < 1 ∨ 1000 < req.message.length then
    { status := 422, response := "", results_count := none, search_performed := false,
      propiedades := none, gemini_calls := 0, log_appended := [] }
  else
    let user_text := pyStripStr req.message
    if user_text = "" then
      { status := 500, response := "Ocurrió un error procesando tu consulta.",
        results_count := none, search_performed := false,
        propiedades := none, gemini_calls := 0, log_appended := [] }
    else
      let channel := pyStripStr req.channel
      let text_lower := pyLowerStr user_text
      let filters := merged_filters req
      let results : Option (List Property) :=
        if filters.isEmpty then none else some (query_properties filters env.db)
      let contexto_historial :=
        if env.historial.isEmpty then ""
        else "\nHistorial reciente:\n" ++
          String.intercalate "\n" (env.historial.map (fun m => "- " ++ m))
      let contexto_dinamico :=
        "Barrios disponibles: " ++ String.intercalate ", " BARRIOS ++ ".\n" ++
        "Tipos de propiedad: " ++ String.intercalate ", " TIPOS ++ ".\n" ++
        "Operaciones disponibles: " ++ String.intercalate ", " OPERACIONES ++ "."
      let style_hint :=
        if channel = "whatsapp" then
          "Respondé de forma breve, directa y cálida como si fuera un mensaje de WhatsApp."
        else
          "Respondé de forma explicativa, profesional y cálida como si fuera una consulta web."
      let es_saludo_inicial :=
        palabras_bienvenida.any (fun w => strContains text_lower w) &&
        !(match req.contexto_anterior with
          | some ctx => !ctx.isEmpty
          | none => false)
      let answer :=
        if es_saludo_inicial then welcome_message
        else
          let prompt := env.build_prompt user_text results filters channel
            (style_hint ++ "\n" ++ contexto_dinamico ++ "\n" ++ contexto_historial)
          let raw := env.llm prompt
          if (results.getD []).isEmpty then raw
          else clean_answer raw (results.getD []).length
      { status := 200,
        response := answer,
        results_count := results.map List.length,
        search_performed := !filters.isEmpty,
        propiedades := results,
        gemini_calls := if es_saludo_inicial then 0 else 1,
        log_appended := [{ channel := channel, user_message := user_text,
                           bot_response := answer,
                           search_performed := !filters.isEmpty,
                           results_count := (results.getD []).length }] }

/-! ### Dictionary lemmas -/

theorem dget_dinsert_self (m : FilterMap) (k : String) (v : FilterValue) :
    dget (dinsert m k v) k = some v := by
  induction m with
  | nil => simp [dinsert, dget]
  | cons kv rest ih =>
    obtain ⟨k', v'⟩ := kv
    by_cases h : k' = k
    · simp [dinsert, dget, h]
    · simp [dinsert, dget, h, ih]

theorem dget_dinsert_ne (m : FilterMap) {k' k : String} (v : FilterValue) (h : k' ≠ k) :
    dget (dinsert m k' v) k = dget m k := by
  induction m with
  | nil => simp [dinsert, dget, h]
  | cons kv rest ih =>
    obtain ⟨k₀, v₀⟩ := kv
    by_cases h0 : k₀ = k'
    · subst h0
      simp only [dinsert, if_pos rfl]
      simp [dget, h]
    · simp only [dinsert, if_neg h0]
      by_cases h1 : k₀ = k <;> simp [dget, h1, ih]

theorem dget_dinsOpt_ne (m : FilterMap) {k' k : String} (o : Option FilterValue)
    (h : k' ≠ k) : dget (dinsOpt m k' o) k = dget m k := by
  cases o with
  | none => rfl
  | some v => exact dget_dinsert_ne m v h

theorem mem_keys_dinsert {x : String} {m : FilterMap} {k : String} {v : FilterValue}
    (h : x ∈ (dinsert m k v).map Prod.fst) : x = k ∨ x ∈ m.map Prod.fst := by
  induction m with
  | nil =>
    simp only [dinsert, List.map_cons, List.map_nil, List.mem_singleton] at h
    exact Or.inl h
  | cons kv rest ih =>
    obtain ⟨k₀, v₀⟩ := kv
    by_cases h0 : k₀ = k
    · simp only [dinsert, if_pos h0, List.map_cons, List.mem_cons] at h
      rcases h with h | h
      · exact Or.inr (by simp [h])
      · exact Or.inr (by simp [h])
    · simp only [dinsert, if_neg h0, List.map_cons, List.mem_cons] at h
      rcases h with h | h
      · exact Or.inr (by simp [h])
      · rcases ih h with h | h
        · exact Or.inl h
        · exact Or.inr (by simp [h])

theorem keys_nodup_dinsert {m : FilterMap} (k : String) (v : FilterValue)
    (hm : (m.map Prod.fst).Nodup) : ((dinsert m k v).map Prod.fst).Nodup := by
  induction m with
  | nil => simp [dinsert]
  | cons kv rest ih =>
    obtain ⟨k₀, v₀⟩ := kv
    simp only [List.map_cons, List.nodup_cons] at hm
    by_cases h0 : k₀ = k
    · simpa [dinsert, h0, List.nodup_cons] using hm
    · simp only [dinsert, if_neg h0, List.map_cons, List.nodup_cons]
      refine ⟨fun hmem => ?_, ih hm.2⟩
      rcases mem_keys_dinsert hmem with h | h
      · exact h0 h
      · exact hm.1 h

theorem keys_nodup_dinsOpt {m : FilterMap} (k : String) (o : Option FilterValue)
    (hm : (m.map Prod.fst).Nodup) : ((dinsOpt m k o).map Prod.fst).Nodup := by
  cases o with
  | none => exact hm
  | some v => exact keys_nodup_dinsert k v hm

theorem detect_filters_keys_nodup (T : String) :
    ((detect_filters T).map Prod.fst).Nodup := by
  simp only [detect_filters]
  exact keys_nodup_dinsOpt _ _ (keys_nodup_dinsOpt _ _ (keys_nodup_dinsOpt _ _
    (keys_nodup_dinsOpt _ _ (keys_nodup_dinsOpt _ _ (keys_nodup_dinsOpt _ _
      (keys_nodup_dinsOpt _ _ List.nodup_nil))))))

theorem dget_eq_none_of_not_mem {m : FilterMap} {k : String}
    (h : k ∉ m.map Prod.fst) : dget m k = none := by
  induction m with
  | nil => rfl
  | cons kv rest ih =>
    obtain ⟨k₀, v₀⟩ := kv
    simp only [List.map_cons, List.mem_cons] at h
    push_neg at h
    simp [dget, Ne.symm h.1, ih h.2]

theorem dget_dictUpdate (E : FilterMap) {D : FilterMap}
    (hD : (D.map Prod.fst).Nodup) (k : String) :
    dget (dictUpdate E D) k = (dget D k).orElse (fun _ => dget E k) := by
  induction D generalizing E with
  | nil => rfl
  | cons kv rest ih =>
    obtain ⟨k₀, v₀⟩ := kv
    simp only [List.map_cons, List.nodup_cons] at hD
    by_cases h : k₀ = k
    · subst h
      have hnone : dget rest k₀ = none := dget_eq_none_of_not_mem hD.1
      simp [dictUpdate, ih (E := dinsert E k₀ v₀) hD.2, hnone, dget,
        dget_dinsert_self, Option.orElse]
    · simp [dictUpdate, ih (E := dinsert E k₀ v₀) hD.2, dget, h,
        dget_dinsert_ne E v₀ h]

theorem dget_eraseKey_self (m : FilterMap) (k : String) :
    dget (eraseKey m k) k = none := by
  induction m with
  | nil => rfl
  | cons kv rest ih =>
    obtain ⟨k₀, v₀⟩ := kv
    simp only [eraseKey, List.filter_cons] at ih ⊢
    by_cases h : k₀ = k
    · simpa [h] using ih
    · simpa [h, dget] using ih

theorem dget_eraseKey_ne (m : FilterMap) {key k : String} (h : key ≠ k) :
    dget (eraseKey m k) key = dget m key := by
  induction m with
  | nil => rfl
  | cons kv rest ih =>
    obtain ⟨k₀, v₀⟩ := kv
    simp only [eraseKey, List.filter_cons] at ih ⊢
    by_cases h0 : k₀ = k
    · subst h0
      have hne : ¬(k₀ = key) := fun hh => h hh.symm
      simpa [dget, hne] using ih
    · by_cases h1 : k₀ = key
      · subst h1
        simp [h0, dget]
      · simpa [h0, dget, h1] using ih

/-! ### Substring lemmas for regex captures -/

/-- Contiguous-substring decomposition (the shape behind Python's `in`). -/
def IsSub (n h : List Char) : Prop := ∃ pre post, h = pre ++ (n ++ post)

theorem isSub_trans {a b c : List Char} (h1 : IsSub a b) (h2 : IsSub b c) : IsSub a c := by
  obtain ⟨p1, q1, rfl⟩ := h1
  obtain ⟨p2, q2, rfl⟩ := h2
  exact ⟨p2 ++ p1, q1 ++ q2, by simp⟩

theorem isSub_cons {cap rest : List Char} (c : Char) (h : IsSub cap rest) :
    IsSub cap (c :: rest) := by
  obtain ⟨p, q, rfl⟩ := h
  exact ⟨c :: p, q, rfl⟩

theorem dropLit_some_eq {lit t r : List Char} (h : dropLit lit t = some r) :
    t = lit ++ r := by
  induction lit generalizing t with
  | nil =>
    simp only [dropLit, Option.some.injEq] at h
    simp [h]
  | cons c cs ih =>
    cases t with
    | nil => simp [dropLit] at h
    | cons d ds =>
      by_cases hc : c = d
      · subst hc
        simpa [dropLit] using congrArg (c :: ·) (ih (by simpa [dropLit] using h))
      · simp [dropLit, hc] at h

theorem dropLit_append (l r : List Char) : dropLit l (l ++ r) = some r := by
  induction l with
  | nil => rfl
  | cons c cs ih => simp [dropLit, ih]

theorem listContains_append_self (n post : List Char) :
    listContains n (n ++ post) = true := by
  cases n with
  | nil =>
    cases post with
    | nil => rfl
    | cons c r => simp [listContains, dropLit]
  | cons c r =>
    have hdrop : dropLit (c :: r) ((c :: r) ++ post) = some post := dropLit_append _ _
    rw [List.cons_append] at hdrop
    simp only [List.cons_append, listContains]
    simp [hdrop]

theorem listContains_of_isSub {n h : List Char} (hs : IsSub n h) :
    listContains n h = true := by
  obtain ⟨pre, post, rfl⟩ := hs
  induction pre with
  | nil => exact listContains_append_self n post
  | cons c pre ih => simp [listContains, ih]

theorem exists_dropWhile_decomp (p : Char → Bool) (l : List Char) :
    ∃ pre, l = pre ++ l.dropWhile p := by
  induction l with
  | nil => exact ⟨[], rfl⟩
  | cons c rest ih =>
    by_cases hc : p c
    · obtain ⟨pre, hpre⟩ := ih
      exact ⟨c :: pre, by simp [List.dropWhile, hc, ← hpre]⟩
    · exact ⟨[], by simp [List.dropWhile, hc]⟩

theorem pyStripChars_isSub (l : List Char) : IsSub (pyStripChars l) l := by
  obtain ⟨pre1, h1⟩ := exists_dropWhile_decomp pyIsSpace l
  obtain ⟨pre2, h2⟩ := exists_dropWhile_decomp pyIsSpace (l.dropWhile pyIsSpace).reverse
  refine ⟨pre1, pre2.reverse, ?_⟩
  conv_lhs => rw [h1]
  congr 1
  have := congrArg List.reverse h2
  simpa [pyStripChars] using this

theorem mem_of_isSub {n h : List Char} (hs : IsSub n h) {c : Char} (hc : c ∈ n) :
    c ∈ h := by
  obtain ⟨pre, post, rfl⟩ := hs
  simp [hc]

theorem searchLitClass_isSub {lit t cap : List Char}
    (h : searchLitClass lit t = some cap) : IsSub cap t := by
  induction t with
  | nil => simp [searchLitClass] at h
  | cons x rest ih =>
    rw [searchLitClass] at h
    split at h
    · rename_i after hd
      split at h
      · exact isSub_cons x (ih h)
      · obtain rfl := Option.some.inj h
        refine ⟨lit, after.dropWhile isBarrioPatChar, ?_⟩
        rw [List.takeWhile_append_dropWhile]
        exact dropLit_some_eq hd
    · exact isSub_cons x (ih h)

theorem searchDeEnd_isSub {t cap : List Char} (h : searchDeEnd t = some cap) :
    IsSub cap t := by
  induction t with
  | nil => simp [searchDeEnd] at h
  | cons x rest ih =>
    rw [searchDeEnd] at h
    split at h
    · rename_i after hd
      split at h
      · obtain rfl := Option.some.inj h
        exact ⟨['d', 'e', ' '], [], by simpa using dropLit_some_eq hd⟩
      · exact isSub_cons x (ih h)
    · exact isSub_cons x (ih h)

theorem map_py_lower_fixed {l : List Char} (h : ∀ c ∈ l, py_lower c = c) :
    l.map py_lower = l :=
  (List.map_congr_left h).trans l.map_id

theorem contains_mem {l : List String} {p : String} (h : l.contains p = true) :
    p ∈ l :=
  List.elem_iff.mp h

/-- On a text every character of which is lower-case-fixed and that contains
no gazetteer entry, every regex capture (a substring of the text) fails the
gazetteer validation. -/
theorem validate_barrio_none {t cap : List Char}
    (hlow : ∀ c ∈ t, py_lower c = c)
    (hb : ∀ b ∈ barrios_disponibles, listContains b.data t = false)
    (hsub : IsSub cap t) :
    validate_barrio cap = none := by
  have hstrip : IsSub (pyStripChars cap) t := isSub_trans (pyStripChars_isSub cap) hsub
  have hfix : (pyStripChars cap).map py_lower = pyStripChars cap :=
    map_py_lower_fixed (fun c hc => hlow c (mem_of_isSub hstrip hc))
  cases hc : barrios_disponibles.contains (⟨(pyStripChars cap).map py_lower⟩ : String) with
  | false =>
    have hneg : ¬(barrios_disponibles.contains
        (⟨(pyStripChars cap).map py_lower⟩ : String) = true) :=
      fun hcon => by rw [hcon] at hc; exact Bool.noConfusion hc
    simp only [validate_barrio, if_neg hneg]
  | true =>
    exfalso
    have hfalse := hb _ (contains_mem hc)
    rw [show (⟨(pyStripChars cap).map py_lower⟩ : String).data = pyStripChars cap from
      congrArg String.data (congrArg String.mk hfix)] at hfalse
    rw [listContains_of_isSub hstrip] at hfalse
    exact Bool.noConfusion hfalse

theorem fallback_barrio_none {t : List Char}
    (hlow : ∀ c ∈ t, py_lower c = c)
    (hb : ∀ b ∈ barrios_disponibles, listContains b.data t = false) :
    fallback_barrio t = none := by
  have h1 : ∀ lit, (searchLitClass lit t).bind validate_barrio = none := by
    intro lit
    cases hs : searchLitClass lit t with
    | none => rfl
    | some cap =>
      simp [validate_barrio_none hlow hb (searchLitClass_isSub hs)]
  have h4 : (searchDeEnd t).bind validate_barrio = none := by
    cases hs : searchDeEnd t with
    | none => rfl
    | some cap =>
      simp [validate_barrio_none hlow hb (searchDeEnd_isSub hs)]
  simp [fallback_barrio, h1, h4, Option.orElse]

theorem detect_barrio_none {t : List Char}
    (hlow : ∀ c ∈ t, py_lower c = c)
    (hb : ∀ b ∈ barrios_disponibles, listContains b.data t = false) :
    detect_barrio t = none := by
  have hdir : detect_barrio_directo t = none :=
    List.find?_eq_none.mpr (fun b hbm => by simp [hb b hbm])
  simp [detect_barrio, hdir, Option.orElse, fallback_barrio_none hlow hb]

/-! ### Claim theorems -/

/-- C1, counterexample. The claim states that on a key collision the explicit
(UI-supplied) filter value wins; on its own instance — explicit
`{tipo: "casa"}` ("house") against the text "departamento en palermo"
(detected `{neighborhood: "palermo", tipo: "departamento"}` = apartment/
Palermo) — the merge of main-ai.py lines 176-178 (`dict.update`) leaves
`tipo = "departamento"`, not `"casa"`: the detected value overwrote the
explicit one. -/
theorem C1_counterexample :
    dget (dictUpdate [("tipo", FilterValue.vstr "casa")]
        (detect_filters "departamento en palermo")) "tipo"
      = some (FilterValue.vstr "departamento") ∧
    ¬(dget (dictUpdate [("tipo", FilterValue.vstr "casa")]
        (detect_filters "departamento en palermo")) "tipo"
      = some (FilterValue.vstr "casa")) := by
  constructor
  · decide
  · decide

/-- C1, amended: the merge `filters = explicitFilters.copy();
filters.update(detected)` gives the DETECTED value precedence on every key
collision — the merged set maps a key to the extracted value whenever the
extractor set it, and falls back to the explicit value only for keys the
extractor did not set. -/
theorem C1_merge_precedence (E : FilterMap) (T : String) (k : String) :
    dget (dictUpdate E (detect_filters T)) k
      = (dget (detect_filters T) k).orElse (fun _ => dget E k) :=
  dget_dictUpdate E (detect_filters_keys_nodup T) k

/-- C1, witness: the amended merge law evaluated on a concrete explicit set
and user text. -/
theorem C1_merge_precedence_witness :
    dget (dictUpdate [("tipo", FilterValue.vstr "casa")]
        (detect_filters "casa en boedo")) "neighborhood"
      = some (FilterValue.vstr "boedo") := by
  have h := C1_merge_precedence [("tipo", FilterValue.vstr "casa")] "casa en boedo" "neighborhood"
  rw [h]
  decide

/-- C3: if every configured credential fails (the attempt raises or returns a
response with zero content parts), `call_gemini_with_rotation` returns the
static fallback text verbatim after exactly one completion attempt per
credential, in declaration order — `keys.length` attempts in total, zero for
an empty credential list; being a total function it never raises. -/
theorem C3_gateway_fallback (keys : List String) (attempt : String → Option String)
    (h : ∀ k ∈ keys, attempt k = none) :
    call_gemini_with_rotation attempt keys = (get_fallback_response, keys.length) := by
  induction keys with
  | nil => rfl
  | cons key rest ih =>
    have hk : attempt key = none := h key (by simp)
    have hrest := ih (fun k hkk => h k (by simp [hkk]))
    simp [call_gemini_with_rotation, hk, hrest]

/-- C3, witness: three failing credentials produce the fallback after
exactly three attempts. -/
theorem C3_gateway_fallback_witness :
    call_gemini_with_rotation (fun _ => none) ["clave1", "clave2", "clave3"]
      = (get_fallback_response, 3) :=
  C3_gateway_fallback ["clave1", "clave2", "clave3"] (fun _ => none) (fun _ _ => rfl)

/-- C5: on the lower-cased text the orchestrator feeds the extractor
(case-insensitivity), whenever some gazetteer entry occurs as a substring,
`detect_filters` maps "neighborhood" to the first such entry in gazetteer
order (the hypothesis says exactly that `b` is the first matching entry),
whatever the surrounding words are. -/
theorem C5_neighborhood_extraction (text : String) (b : String)
    (h : barrios_disponibles.find?
        (fun x => listContains x.data (pyLowerStr text).data) = some b) :
    dget (detect_filters (pyLowerStr text)) "neighborhood"
      = some (FilterValue.vstr b) := by
  have hdir : detect_barrio (pyLowerStr text).data = some b := by
    simp [detect_barrio, detect_barrio_directo, h, Option.orElse]
  simp only [detect_filters]
  rw [dget_dinsOpt_ne _ _ (by decide), dget_dinsOpt_ne _ _ (by decide),
    dget_dinsOpt_ne _ _ (by decide), dget_dinsOpt_ne _ _ (by decide),
    dget_dinsOpt_ne _ _ (by decide), dget_dinsOpt_ne _ _ (by decide), hdir]
  rfl

/-- C5, witness: "Palermo" precedes "Belgrano" in the gazetteer, so it wins
even though "belgrano" occurs earlier in the text. -/
theorem C5_neighborhood_extraction_witness :
    dget (detect_filters (pyLowerStr "Departamento en Belgrano y Palermo")) "neighborhood"
      = some (FilterValue.vstr "palermo") :=
  C5_neighborhood_extraction "Departamento en Belgrano y Palermo" "palermo" (by decide)

/-- C6: on a lower-cased input in which no extraction category matches — no
gazetteer neighborhood occurs as a substring (which also rules out every
validated prepositional-fallback capture), no type or operation vocabulary
word occurs, and none of the price, rooms or square-meter patterns produces
a value — `detect_filters` returns the empty filter set: no key is ever set
to a sentinel or default. -/
theorem C6_extractor_empty (text_lower : String)
    (hlow : ∀ c ∈ text_lower.data, py_lower c = c)
    (hb : ∀ b ∈ barrios_disponibles, listContains b.data text_lower.data = false)
    (ht : ∀ x ∈ tipos_disponibles, listContains x.data text_lower.data = false)
    (ho : ∀ x ∈ operaciones_disponibles, listContains x.data text_lower.data = false)
    (hp : detect_max_price text_lower.data = none)
    (hmp : detect_min_price text_lower.data = none)
    (hr : detect_min_rooms text_lower.data = none)
    (hsq : detect_min_sqm text_lower.data = none) :
    detect_filters text_lower = [] := by
  have htf : tipos_disponibles.find?
      (fun x => listContains x.data text_lower.data) = none :=
    List.find?_eq_none.mpr (fun x hx => by simp [ht x hx])
  have hof : operaciones_disponibles.find?
      (fun x => listContains x.data text_lower.data) = none :=
    List.find?_eq_none.mpr (fun x hx => by simp [ho x hx])
  simp [detect_filters, detect_barrio_none hlow hb, htf, hof, hp, hmp, hr, hsq, dinsOpt]

/-- C6, witness: a pattern-free text yields the empty filter set. -/
theorem C6_extractor_empty_witness :
    detect_filters "busco algo lindo por aca" = [] :=
  C6_extractor_empty "busco algo lindo por aca" (by decide) (by decide) (by decide)
    (by decide) (by decide) (by decide) (by decide) (by decide)

/-- C7: for every filter set (the empty one included) the query returns
exactly the records satisfying every active clause conjunctively — a
permutation of `db.filter` — sorted by ascending price; with no filter
present every stored record is returned. -/
theorem C7_query_order_total (filters : FilterMap) (db : List Property) :
    List.Sorted precioLe (query_properties filters db) ∧
    (query_properties filters db).Perm (db.filter (property_matches filters)) ∧
    (query_properties [] db).Perm db := by
  refine ⟨List.sorted_insertionSort precioLe _, List.perm_insertionSort precioLe _, ?_⟩
  have hall : db.filter (property_matches []) = db :=
    List.filter_eq_self.mpr (fun p _ => rfl)
  rw [query_properties, hall]
  exact List.perm_insertionSort precioLe db

/-- The truthiness gate of one clause is unaffected by erasing a key whose
stored value is falsy. -/
theorem clauseOf_eraseKey (filters : FilterMap) {k : String} {v : FilterValue}
    (hk : dget filters k = some v) (hv : pyTruthy v = false)
    (key : String) (test : FilterValue → Bool) :
    clauseOf (eraseKey filters k) key test = clauseOf filters key test := by
  by_cases h : key = k
  · subst h
    simp [clauseOf, dget_eraseKey_self, hk, hv]
  · simp [clauseOf, dget_eraseKey_ne filters h]

/-- C9: a filter key bound to a falsy value (0, empty string, None, False)
is treated by `query_properties` exactly as if the key were absent — the
corresponding predicate is never applied, so e.g. `min_price = 0` imposes no
price constraint at all. -/
theorem C9_falsy_filter_ignored (filters : FilterMap) (db : List Property)
    (k : String) (v : FilterValue)
    (hk : dget filters k = some v) (hv : pyTruthy v = false) :
    query_properties filters db = query_properties (eraseKey filters k) db := by
  have hfilter : db.filter (property_matches filters)
      = db.filter (property_matches (eraseKey filters k)) :=
    List.filter_congr (fun p _ => by
      simp only [property_matches, clauseOf_eraseKey filters hk hv])
  rw [query_properties, query_properties, hfilter]

/-- C9, witness: `min_price = 0` leaves the query identical to the query
without the key, on a concrete two-row catalog. -/
theorem C9_falsy_filter_ignored_witness :
    query_properties [("min_price", FilterValue.vint 0), ("tipo", FilterValue.vstr "casa")]
        [{ id_temporal := "p1", titulo := "Casa en Palermo", barrio := "Palermo",
           precio := 250000, ambientes := 3, metros_cuadrados := 90,
           operacion := "venta", tipo := "casa" },
         { id_temporal := "p2", titulo := "Depto en Boedo", barrio := "Boedo",
           precio := 120000, ambientes := 2, metros_cuadrados := 55,
           operacion := "venta", tipo := "departamento" }]
      = query_properties
          (eraseKey [("min_price", FilterValue.vint 0), ("tipo", FilterValue.vstr "casa")]
            "min_price")
          [{ id_temporal := "p1", titulo := "Casa en Palermo", barrio := "Palermo",
             precio := 250000, ambientes := 3, metros_cuadrados := 90,
             operacion := "venta", tipo := "casa" },
           { id_temporal := "p2", titulo := "Depto en Boedo", barrio := "Boedo",
             precio := 120000, ambientes := 2, metros_cuadrados := 55,
             operacion := "venta", tipo := "departamento" }] :=
  C9_falsy_filter_ignored _ _ "min_price" (FilterValue.vint 0) rfl rfl

/-- C2, counterexample. On the claim's instance — the LLM text
"1. Casa en Palermo 🏠\n2. PH en Boedo 🏠\n\n¡Mirá las opciones!" with 2
records — the claim expects the shaped text to be "¡Mirá las opciones!"
possibly extended with a suffix; but that survivor is 19 characters, below
the 20-character minimum of main-ai.py line 261, so the shaper replaces it
wholesale: the result does not start with (nor contain) the survivor. -/
theorem C2_counterexample :
    strStartsWith
      (clean_answer "1. Casa en Palermo 🏠\n2. PH en Boedo 🏠\n\n¡Mirá las opciones!" 2)
      "¡Mirá las opciones!" = false := by
  decide

/-- C2, amended: shaping the claim's LLM text with 2 records strips both
numbered listing lines, but the surviving "¡Mirá las opciones!" (19
characters) falls below the 20-character threshold and is replaced by the
synthesized confirmation; the returned text contains no listing line. -/
theorem C2_shaper_strips_listing :
    clean_answer "1. Casa en Palermo 🏠\n2. PH en Boedo 🏠\n\n¡Mirá las opciones!" 2
      = "✅ Encontré 2 propiedades que coinciden con tu búsqueda. Te las muestro abajo:" ∧
    (splitLines (clean_answer
        "1. Casa en Palermo 🏠\n2. PH en Boedo 🏠\n\n¡Mirá las opciones!" 2).data).all
      (fun line => !is_listing_line line) = true := by
  constructor
  · rfl
  · decide

/-- C4: a chat request with message "hola" and no previous context takes the
greeting short-circuit of main-ai.py lines 206-219 — whatever the catalog,
history, prompt builder or LLM behave like, and whatever explicit filters
accompany the request, the handler returns the fixed templated welcome
message with status 200 and performs zero calls to the LLM gateway. -/
theorem C4_greeting_short_circuit (env : ChatEnv) (f : Option FilterMap) :
    (chat env { message := "hola", channel := "web", filters := f,
                contexto_anterior := none }).response = welcome_message ∧
    (chat env { message := "hola", channel := "web", filters := f,
                contexto_anterior := none }).gemini_calls = 0 ∧
    (chat env { message := "hola", channel := "web", filters := f,
                contexto_anterior := none }).status = 200 :=
  ⟨rfl, rfl, rfl⟩

/-- C4, witness: the short-circuit evaluated in a concrete environment. -/
theorem C4_greeting_short_circuit_witness :
    (chat { db := [], historial := [],
            build_prompt := fun _ _ _ _ _ => "", llm := fun _ => "x" }
        { message := "hola", channel := "web", filters := none,
          contexto_anterior := none }).response = welcome_message :=
  (C4_greeting_short_circuit
    { db := [], historial := [], build_prompt := fun _ _ _ _ _ => "",
      llm := fun _ => "x" } none).1

/-- C8: a chat request whose message is empty is rejected by the
`min_length=1` validation before the handler body runs: the caller receives
a client-error response (422) and no conversation-log row is appended. -/
theorem C8_empty_message (env : ChatEnv) (channel : String) (f : Option FilterMap)
    (ctx : Option FilterMap) (es : Bool) :
    400 ≤ (chat env { message := "", channel := channel, filters := f,
                      contexto_anterior := ctx, es_seguimiento := es }).status ∧
    (chat env { message := "", channel := channel, filters := f,
                contexto_anterior := ctx, es_seguimiento := es }).status < 500 ∧
    (chat env { message := "", channel := channel, filters := f,
                contexto_anterior := ctx, es_seguimiento := es }).log_appended = [] := by
  refine ⟨?_, ?_, rfl⟩
  · show (400 : Nat) ≤ 422
    decide
  · show (422 : Nat) < 500
    decide

/-- C8, witness: the empty-message rejection in a concrete environment. -/
theorem C8_empty_message_witness :
    (chat { db := [], historial := [],
            build_prompt := fun _ _ _ _ _ => "", llm := fun _ => "x" }
        { message := "", channel := "web", filters := none,
          contexto_anterior := none, es_seguimiento := false }).log_appended = [] :=
  (C8_empty_message
    { db := [], historial := [], build_prompt := fun _ _ _ _ _ => "",
      llm := fun _ => "x" } "web" none none false).2.2

/-- C10: in every 200 response of the chat handler the three result fields
are consistent — `search_performed` is true exactly when the merged filter
set is non-empty; exactly then `propiedades` carries the record list and
`results_count` its length; when false, both are absent. -/
theorem C10_response_consistency (env : ChatEnv) (req : ChatRequest)
    (h : (chat env req).status = 200) :
    ((chat env req).search_performed = true ↔ merged_filters req ≠ []) ∧
    ((chat env req).search_performed = true →
      ∃ l, (chat env req).propiedades = some l ∧
        (chat env req).results_count = some l.length) ∧
    ((chat env req).search_performed = false →
      (chat env req).propiedades = none ∧ (chat env req).results_count = none) := by
  simp only [chat] at h ⊢
  by_cases h1 : req.message.length < 1 ∨ 1000 < req.message.length
  · rw [if_pos h1] at h
    exact absurd h (by decide)
  · rw [if_neg h1] at h ⊢
    by_cases h2 : pyStripStr req.message = ""
    · rw [if_pos h2] at h
      exact absurd h (by decide)
    · rw [if_neg h2] at h ⊢
      clear h
      by_cases hf : (merged_filters req).isEmpty
      · have hnil : merged_filters req = [] := List.isEmpty_iff.mp hf
        refine ⟨by simp [hf, hnil], ?_, fun _ => by simp [hf]⟩
        intro hsp
        simp [hf] at hsp
      · have hfb : (merged_filters req).isEmpty = false := by
          cases hiso : (merged_filters req).isEmpty
          · rfl
          · exact absurd hiso hf
        have hne : merged_filters req ≠ [] := fun hh => by
          rw [hh] at hfb
          simp at hfb
        refine ⟨by simp [hfb, hne], ?_, ?_⟩
        · intro _
          exact ⟨query_properties (merged_filters req) env.db, by simp [hfb], by simp [hfb]⟩
        · intro hsp
          simp [hfb] at hsp

/-- C10, witness: the consistency law evaluated on a concrete 200 response
whose merged filter set is non-empty. -/
theorem C10_response_consistency_witness :
    ((chat { db := [{ id_temporal := "p1", titulo := "Casa en Palermo",
                      barrio := "Palermo", precio := 250000, ambientes := 3,
                      metros_cuadrados := 90, operacion := "venta", tipo := "casa" }],
             historial := [], build_prompt := fun _ _ _ _ _ => "",
             llm := fun _ => "respuesta" }
        { message := "casa en palermo" }).search_performed = true ↔
      merged_filters { message := "casa en palermo" } ≠ []) :=
  (C10_response_consistency
    { db := [{ id_temporal := "p1", titulo := "Casa en Palermo",
               barrio := "Palermo", precio := 250000, ambientes := 3,
               metros_cuadrados := 90, operacion := "venta", tipo := "casa" }],
      historial := [], build_prompt := fun _ _ _ _ _ => "",
      llm := fun _ => "respuesta" }
    { message := "casa en palermo" } rfl).1

end Dante
